import Mathlib

/-!
Verification of the FavScene-for-Spotify sync core: the crypto module
(`hashUserIdForKey`, `encrypt`, `decrypt`, `isEncrypted`) and the Cloudflare
worker request handlers (`handleGetScenes`, `handlePutScenes`, `handleRequest`,
and the top-level `fetch` wrapper, embedded here as `workerFetch`).

Modelling conventions:
- JS strings are `List Char` (sequences of Unicode code points).  `jsLength`
  counts UTF-16 code units as the JS `.length` property does; `utf8Length`
  counts UTF-8 bytes.
- Byte arrays are `List Nat` together with the predicate `allBytes` (< 256).
- The external primitives used by the crypto module (SHA-256 and AES-256-GCM
  from the noble libraries, `TextEncoder`/`TextDecoder`, and the platform
  `JSON.parse`) are parameters collected in `CryptoPrims`, constrained by the
  properties their documentation guarantees.  `btoa`/`atob` (base64) are
  implemented concretely (`b64EncodeBytes`/`b64DecodeChars`).
- The fresh random IV produced by `crypto.getRandomValues` is passed as an
  explicit argument.
- The KV backend is `Store`; handlers also return the list of backend
  operations (`KVOp`) they performed, in order.
- JS exceptions that escape a handler are modelled with `Except Unit`; the
  outer `fetch` boundary catches them and produces the 500 response.
-/

/-- Convert a Lean string literal to the `List Char` model of a JS string. -/
def str (s : String) : List Char := s.data

/-- JS `String.prototype.startsWith`: first argument the string, second the
pattern searched for at the start. -/
def jsStartsWith : List Char → List Char → Bool
  | _, [] => true
  | [], _ :: _ => false
  | c :: cs, p :: ps => c = p && jsStartsWith cs ps

/-- Number of UTF-16 code units a code point occupies (JS `.length` weight). -/
def charWidth16 (c : Char) : Nat := if c.toNat < 65536 then 1 else 2

/-- JS `String.prototype.length`: number of UTF-16 code units. -/
def jsLength (s : List Char) : Nat := (s.map charWidth16).sum

/-- Number of bytes of the UTF-8 encoding of the string. -/
def utf8Length (s : List Char) : Nat := (s.map Char.utf8Size).sum

/-- A `List Nat` models a byte array when every entry is below 256. -/
def allBytes (l : List Nat) : Prop := ∀ x ∈ l, x < 256

instance (l : List Nat) : Decidable (allBytes l) := by
  unfold allBytes; infer_instance

/-! ### Base64 (the platform `btoa` / `atob` pair) -/

/-- The base64 alphabet in index order. -/
def b64Chars : List Char :=
  ['A','B','C','D','E','F','G','H','I','J','K','L','M',
   'N','O','P','Q','R','S','T','U','V','W','X','Y','Z',
   'a','b','c','d','e','f','g','h','i','j','k','l','m',
   'n','o','p','q','r','s','t','u','v','w','x','y','z',
   '0','1','2','3','4','5','6','7','8','9','+','/']

/-- Character for a 6-bit group. -/
def b64Char (n : Nat) : Char := b64Chars.getD n 'A'

def b64IndexGo (c : Char) : List Char → Option Nat
  | [] => none
  | x :: xs => if x = c then some 0 else (b64IndexGo c xs).map (· + 1)

/-- Index of a character in the base64 alphabet, if any. -/
def b64Index (c : Char) : Option Nat := b64IndexGo c b64Chars

/-- Base64 encoding of a byte sequence: the JS `btoa(String.fromCharCode(...))`
composite used by the crypto module. -/
def b64EncodeBytes : List Nat → List Char
  | [] => []
  | [a] => [b64Char (a / 4), b64Char (a % 4 * 16), '=', '=']
  | [a, b] => [b64Char (a / 4), b64Char (a % 4 * 16 + b / 16), b64Char (b % 16 * 4), '=']
  | a :: b :: c :: rest =>
    b64Char (a / 4) :: b64Char (a % 4 * 16 + b / 16) ::
      b64Char (b % 16 * 4 + c / 64) :: b64Char (c % 64) :: b64EncodeBytes rest

/-- Base64 decoding, `none` on malformed input: the JS `atob` (which throws on
malformed input) composed with per-character code extraction. -/
def b64DecodeChars : List Char → Option (List Nat)
  | [] => some []
  | c1 :: c2 :: c3 :: c4 :: rest =>
    match b64Index c1, b64Index c2 with
    | some s1, some s2 =>
      if c3 = '=' then
        if c4 = '=' && rest.isEmpty then some [s1 * 4 + s2 / 16] else none
      else
        match b64Index c3 with
        | some s3 =>
          if c4 = '=' then
            if rest.isEmpty then some [s1 * 4 + s2 / 16, s2 % 16 * 16 + s3 / 4] else none
          else
            match b64Index c4, b64DecodeChars rest with
            | some s4, some tl =>
              some ((s1 * 4 + s2 / 16) :: (s2 % 16 * 16 + s3 / 4) :: (s3 % 4 * 64 + s4) :: tl)
            | _, _ => none
        | none => none
    | _, _ => none
  | _ => none

/-! ### Hex rendering (noble `bytesToHex`) -/

def hexDigit (n : Nat) : Char := (str "0123456789abcdef").getD n '0'

/-- Lowercase hex rendering of a byte sequence, two digits per byte. -/
def bytesToHex (bytes : List Nat) : List Char :=
  bytes.flatMap (fun b => [hexDigit (b / 16), hexDigit (b % 16)])

/-! ### JSON values and `JSON.stringify` -/

/-- The values produced by the platform `JSON.parse`.  Numbers are restricted
to integers, which covers every value this service manipulates. -/
inductive JValue where
  | jnull
  | jbool (b : Bool)
  | jnum (n : Int)
  | jstr (s : List Char)
  | jarr (xs : List JValue)
  | jobj (fields : List (List Char × JValue))

/-- JSON string escaping as performed by `JSON.stringify`. -/
def escChar (c : Char) : List Char :=
  if c = '"' then ['\\', '"']
  else if c = '\\' then ['\\', '\\']
  else if c = '\n' then ['\\', 'n']
  else if c = '\r' then ['\\', 'r']
  else if c = '\t' then ['\\', 't']
  else if c = Char.ofNat 8 then ['\\', 'b']
  else if c = Char.ofNat 12 then ['\\', 'f']
  else if c.toNat < 32 then
    '\\' :: 'u' :: '0' :: '0' :: [hexDigit (c.toNat / 16), hexDigit (c.toNat % 16)]
  else [c]

def escapeChars (s : List Char) : List Char := s.flatMap escChar

mutual

/-- The platform `JSON.stringify` (minimal form, no spacing), restricted to
the integer-numbered values of `JValue`. -/
def jsonStringify : JValue → List Char
  | .jnull => str "null"
  | .jbool true => str "true"
  | .jbool false => str "false"
  | .jnum n => (toString n).data
  | .jstr s => '"' :: escapeChars s ++ ['"']
  | .jarr xs => '[' :: stringifyItems xs ++ [']']
  | .jobj fs => '\x7b' :: stringifyFields fs ++ ['\x7d']

def stringifyItems : List JValue → List Char
  | [] => []
  | [x] => jsonStringify x
  | x :: y :: rest => jsonStringify x ++ ',' :: stringifyItems (y :: rest)

def stringifyFields : List (List Char × JValue) → List Char
  | [] => []
  | [(k, v)] => '"' :: escapeChars k ++ '"' :: ':' :: jsonStringify v
  | (k, v) :: f :: rest =>
    ('"' :: escapeChars k ++ '"' :: ':' :: jsonStringify v) ++ ',' :: stringifyFields (f :: rest)

end

/-- Field lookup on a parsed JS object. -/
def lookupField : List (List Char × JValue) → List Char → Option JValue
  | [], _ => none
  | (k, v) :: rest, key => if k = key then some v else lookupField rest key

/-! ### External primitives of the crypto module -/

/-- The external primitives imported by the crypto module, with the
properties their specifications guarantee: AES-256-GCM authenticated
decryption inverts encryption under the same key and IV and produces bytes,
and `TextDecoder` inverts `TextEncoder`, which produces bytes.  `jsonParse`
is the platform `JSON.parse`, returning `none` where it would throw. -/
structure CryptoPrims where
  sha256 : List Nat → List Nat
  gcmEncrypt : List Nat → List Nat → List Nat → List Nat
  gcmDecrypt : List Nat → List Nat → List Nat → Option (List Nat)
  textEncode : List Char → List Nat
  textDecode : List Nat → List Char
  jsonParse : List Char → Option JValue
  gcmDecrypt_gcmEncrypt : ∀ key iv data, gcmDecrypt key iv (gcmEncrypt key iv data) = some data
  gcmEncrypt_bytes : ∀ key iv data, allBytes data → allBytes (gcmEncrypt key iv data)
  textDecode_textEncode : ∀ s, textDecode (textEncode s) = s
  textEncode_bytes : ∀ s, allBytes (textEncode s)

/-! ### The crypto module (`worker/crypto.ts`) -/

/-- `hashUserIdForKey`: SHA-256 of the user id, rendered as hex, truncated to
32 characters (`KEY_HASH_LENGTH`). -/
def hashUserIdForKey (P : CryptoPrims) (userId : List Char) : List Char :=
  (bytesToHex (P.sha256 (P.textEncode userId))).take 32

/-- `deriveKey`: the full 32-byte SHA-256 digest of the user id. -/
def deriveKey (P : CryptoPrims) (userId : List Char) : List Nat :=
  P.sha256 (P.textEncode userId)

/-- `encrypt`: AES-256-GCM under the derived key with a fresh 12-byte IV
(passed explicitly here), then base64 of IV ‖ ciphertext. -/
def encrypt (P : CryptoPrims) (iv : List Nat) (plaintext userId : List Char) : List Char :=
  b64EncodeBytes (iv ++ P.gcmEncrypt (deriveKey P userId) iv (P.textEncode plaintext))

/-- `decrypt`: base64-decode, split at `IV_LENGTH = 12`, authenticated
decryption, UTF-8 decode.  `none` models the exceptions thrown by `atob` on
malformed base64 and by GCM on authentication failure. -/
def decrypt (P : CryptoPrims) (encrypted userId : List Char) : Option (List Char) :=
  match b64DecodeChars encrypted with
  | none => none
  | some combined =>
    match P.gcmDecrypt (deriveKey P userId) (combined.take 12) (combined.drop 12) with
    | none => none
    | some plaintextBytes => some (P.textDecode plaintextBytes)

/-- `isEncrypted`: a stored value is encrypted unless it starts with a brace. -/
def isEncrypted (value : List Char) : Bool := !(jsStartsWith value (str "\x7b"))

/-! ### The worker (`worker/index.ts`) -/

/-- An HTTP response: status, headers in order, optional body. -/
structure Response where
  status : Nat
  headers : List (List Char × List Char)
  body : Option (List Char)
deriving DecidableEq

/-- The KV namespace binding: a partial map from keys to stored strings. -/
def Store : Type := List Char → Option (List Char)

/-- A backend operation performed by a handler, recorded in order. -/
inductive KVOp where
  | read (key : List Char)
  | write (key value : List Char)
deriving DecidableEq

/-- `KVNamespace.put`. -/
def putStore (store : Store) (key value : List Char) : Store :=
  fun k => if k = key then some value else store k

/-- An inbound HTTP request as the worker sees it. -/
structure Request where
  method : List Char
  pathname : List Char
  protocol : List Char
  hostname : List Char
  authHeader : Option (List Char)
  contentLength : Option (List Char)
  bodyText : Option (List Char)

/-- The worker's other external collaborators: the static-asset binding and
the Spotify profile endpoint used by `validateSpotifyToken` (mapping a bearer
token to the user id Spotify associates with it, `none` for a rejected or
failing call). -/
structure World where
  assetsFetch : Request → Response
  resolveToken : List Char → Option (List Char)

/-- `CORS_HEADERS`. -/
def CORS_HEADERS : List (List Char × List Char) :=
  [(str "Access-Control-Allow-Origin", str "*"),
   (str "Access-Control-Allow-Methods", str "GET, PUT, OPTIONS"),
   (str "Access-Control-Allow-Headers", str "Authorization, Content-Type")]

/-- `jsonResponse`: serialize the data, attach content type and CORS headers. -/
def jsonResponse (data : JValue) (status : Nat) : Response :=
  { status := status
    headers := (str "Content-Type", str "application/json") :: CORS_HEADERS
    body := some (jsonStringify data) }

/-- A `{ "error": msg }` body. -/
def errorVal (msg : List Char) : JValue := .jobj [(str "error", .jstr msg)]

/-- The `{ "scenes": [] }` empty payload. -/
def emptyScenesVal : JValue := .jobj [(str "scenes", .jarr [])]

/-- The `{ "ok": true }` body of a successful save. -/
def okVal : JValue := .jobj [(str "ok", .jbool true)]

/-- `buildKVKey`: prefix plus hashed user id (current generation). -/
def buildKVKey (P : CryptoPrims) (userId : List Char) : List Char :=
  str "scenes:" ++ hashUserIdForKey P userId

/-- `buildLegacyKVKey`: prefix plus raw user id (pre-encryption generation). -/
def buildLegacyKVKey (userId : List Char) : List Char :=
  str "scenes:" ++ userId

/-- JS falsiness of a nullable string (`null` and `""` are falsy). -/
def strFalsy : Option (List Char) → Bool
  | none => true
  | some s => s.isEmpty

/-- Whether evaluating `payload.scenes.length` (the GET handler's log line)
completes without throwing: `payload` must not be `null` and
`payload.scenes` must be neither absent (`undefined`) nor `null`. -/
def scenesAccessOk : JValue → Bool
  | .jobj fs =>
    match lookupField fs (str "scenes") with
    | some .jnull => false
    | some _ => true
    | none => false
  | _ => false

/-- The body of the `try` block of `handleGetScenes`: pick the decode path
with `isEncrypted`, decrypt if needed, parse, and evaluate the log line;
`none` collapses every thrown exception into the `catch` branch. -/
def tryGetPayload (P : CryptoPrims) (raw userId : List Char) : Option JValue :=
  match (if isEncrypted raw then decrypt P raw userId else some raw) with
  | none => none
  | some jsonString =>
    match P.jsonParse jsonString with
    | none => none
    | some payload => if scenesAccessOk payload then some payload else none

/-- `handleGetScenes`: read the current key, fall back to the legacy key,
return the parsed payload or the empty payload. -/
def handleGetScenes (P : CryptoPrims) (store : Store) (userId : List Char) :
    Response × List KVOp :=
  let kvKey := buildKVKey P userId
  let first := store kvKey
  let stored := if strFalsy first then store (buildLegacyKVKey userId) else first
  let ops := if strFalsy first
    then [KVOp.read kvKey, KVOp.read (buildLegacyKVKey userId)]
    else [KVOp.read kvKey]
  if strFalsy stored then (jsonResponse emptyScenesVal 200, ops)
  else
    match stored with
    | some raw =>
      match tryGetPayload P raw userId with
      | some payload => (jsonResponse payload 200, ops)
      | none => (jsonResponse emptyScenesVal 200, ops)
    | none => (jsonResponse emptyScenesVal 200, ops)

/-- JS property access `v.field` on a parsed JSON value: throws on `null`
(the `Except.error`), is `undefined` (`none`) on every non-object. -/
def jsFieldAccess : JValue → List Char → Except Unit (Option JValue)
  | .jnull, _ => .error ()
  | .jobj fs, key => .ok (lookupField fs key)
  | _, _ => .ok none

/-- JS truthiness of a possibly-`undefined` parsed JSON value. -/
def jsTruthy : Option JValue → Bool
  | none => false
  | some .jnull => false
  | some (.jbool b) => b
  | some (.jnum n) => !(n = 0)
  | some (.jstr s) => !s.isEmpty
  | some (.jarr _) => true
  | some (.jobj _) => true

/-- `Array.isArray`. -/
def jsIsArray : Option JValue → Bool
  | some (.jarr _) => true
  | _ => false

/-- `.length` of a value known to be an array. -/
def jsArrayLength : Option JValue → Nat
  | some (.jarr xs) => xs.length
  | _ => 0

def digitVal (c : Char) : Nat := c.toNat - 48

def decimalValue (ds : List Char) : Nat := ds.foldl (fun a c => a * 10 + digitVal c) 0

/-- JS `parseInt(s, 10)`: skip spaces, optional sign, longest digit run;
`none` models `NaN`. -/
def jsParseInt (s : List Char) : Option Int :=
  let cs := s.dropWhile (fun c => c = ' ')
  match cs with
  | '-' :: rest =>
    let ds := rest.takeWhile Char.isDigit
    if ds.isEmpty then none else some (-(decimalValue ds : Int))
  | '+' :: rest =>
    let ds := rest.takeWhile Char.isDigit
    if ds.isEmpty then none else some ((decimalValue ds : Int))
  | _ =>
    let ds := cs.takeWhile Char.isDigit
    if ds.isEmpty then none else some ((decimalValue ds : Int))

/-- The defense-in-depth content-length check: fires only when the header is
present, non-empty (JS truthiness), parses, and exceeds `MAX_BODY_SIZE`.
A `NaN` comparison is false, hence `none` does not fire. -/
def hintTooLarge (hint : Option (List Char)) : Bool :=
  match hint with
  | none => false
  | some h =>
    !h.isEmpty &&
      (match jsParseInt h with
       | some n => decide ((50 * 1024 : Int) < n)
       | none => false)

/-- `handlePutScenes`: size hint check, body read, actual-length check, JSON
parse, shape check (which throws a TypeError when the parsed value is
`null`), item-count check, then encrypt and write under the current key. -/
def handlePutScenes (P : CryptoPrims) (store : Store) (userId : List Char)
    (iv : List Nat) (req : Request) : Except Unit (Response × Store × List KVOp) :=
  if hintTooLarge req.contentLength then
    .ok (jsonResponse (errorVal (str "Payload too large. Maximum 50KB allowed.")) 413, store, [])
  else
    match req.bodyText with
    | none => .ok (jsonResponse (errorVal (str "Failed to read request body")) 400, store, [])
    | some body =>
      if jsLength body > 50 * 1024 then
        .ok (jsonResponse (errorVal (str "Payload too large. Maximum 50KB allowed.")) 413, store, [])
      else
        match P.jsonParse body with
        | none => .ok (jsonResponse (errorVal (str "Invalid JSON")) 400, store, [])
        | some payload =>
          match jsFieldAccess payload (str "scenes") with
          | .error e => .error e
          | .ok scenes =>
            if !(jsTruthy scenes) || !(jsIsArray scenes) then
              .ok (jsonResponse (errorVal (str "Invalid payload structure")) 400, store, [])
            else if jsArrayLength scenes > 50 then
              .ok (jsonResponse (errorVal (str "Maximum 50 scenes allowed")) 400, store, [])
            else
              let kvKey := buildKVKey P userId
              let encrypted := encrypt P iv (jsonStringify payload) userId
              .ok (jsonResponse okVal 200, putStore store kvKey encrypted,
                   [KVOp.write kvKey encrypted])

/-- The URL produced by the HTTPS-upgrade redirect. -/
def httpsUrl (req : Request) : List Char :=
  str "https://" ++ req.hostname ++ req.pathname

/-- `handleRequest`: asset passthrough for non-API paths, CORS preflight,
HTTPS upgrade, then authentication and method routing for `/api/scenes`. -/
def handleRequest (P : CryptoPrims) (W : World) (store : Store) (iv : List Nat)
    (req : Request) : Except Unit (Response × Store × List KVOp) :=
  if !(jsStartsWith req.pathname (str "/api/")) then
    .ok (W.assetsFetch req, store, [])
  else if req.method = str "OPTIONS" then
    .ok ({ status := 200, headers := CORS_HEADERS, body := none }, store, [])
  else if req.protocol = str "http:" && !(req.hostname = str "localhost") then
    .ok ({ status := 301, headers := [(str "Location", httpsUrl req)], body := none }, store, [])
  else if req.pathname = str "/api/scenes" then
    match req.authHeader with
    | none => .ok (jsonResponse (errorVal (str "Missing or invalid Authorization header")) 401, store, [])
    | some a =>
      if !(jsStartsWith a (str "Bearer ")) then
        .ok (jsonResponse (errorVal (str "Missing or invalid Authorization header")) 401, store, [])
      else
        match W.resolveToken (a.drop 7) with
        | none => .ok (jsonResponse (errorVal (str "Invalid or expired token")) 401, store, [])
        | some userId =>
          if req.method = str "GET" then
            let r := handleGetScenes P store userId
            .ok (r.1, store, r.2)
          else if req.method = str "PUT" then
            handlePutScenes P store userId iv req
          else
            .ok (jsonResponse (errorVal (str "Method not allowed")) 405, store, [])
  else
    .ok (jsonResponse (errorVal (str "Not found")) 404, store, [])

/-- The exported `fetch` handler: run `handleRequest`, catching any escaped
exception into a generic 500 response. -/
def workerFetch (P : CryptoPrims) (W : World) (store : Store) (iv : List Nat)
    (req : Request) : Response × Store × List KVOp :=
  match handleRequest P W store iv req with
  | .ok r => r
  | .error _ => (jsonResponse (errorVal (str "Internal server error")) 500, store, [])

/-! ### A concrete instantiation of the external primitives

Used by the witness theorems.  The proof obligations of `CryptoPrims` are
discharged for a simple invertible cipher and a 3-bytes-per-code-point text
codec; `testParse` decides `JSON.parse` on exactly the handful of bodies the
witnesses exercise (each entry is the value the platform parser produces for
that body). -/

def encodeChar3 (c : Char) : List Nat :=
  [c.toNat % 256, c.toNat / 256 % 256, c.toNat / 65536]

def testTextEncode (s : List Char) : List Nat := s.flatMap encodeChar3

def testTextDecode : List Nat → List Char
  | a :: b :: c :: rest => Char.ofNat (a + 256 * b + 65536 * c) :: testTextDecode rest
  | _ => []

def testSha256 (l : List Nat) : List Nat :=
  (List.range 32).map (fun i => (l.length + i) % 256)

/-- 17100 euro signs: 17100 UTF-16 code units but 51300 UTF-8 bytes. -/
def bigPad : List Char := List.replicate 17100 '€'

/-- A well-shaped payload whose serialization exceeds 50 KiB in bytes while
staying far below 50 * 1024 UTF-16 code units. -/
def bigPayload : JValue := .jobj [(str "scenes", .jarr [.jstr bigPad])]

def testParse (s : List Char) : Option JValue :=
  if s = str "\x7b\"scenes\":[]\x7d" then some emptyScenesVal
  else if s = str "null" then some JValue.jnull
  else if s = str "\x7b\x7d" then some (JValue.jobj [])
  else if s.length == 17115 && s == jsonStringify bigPayload then some bigPayload
  else none

def testPrims : CryptoPrims :=
  { sha256 := testSha256
    gcmEncrypt := fun _ _ data => data
    gcmDecrypt := fun _ _ c => some c
    textEncode := testTextEncode
    textDecode := testTextDecode
    jsonParse := testParse
    gcmDecrypt_gcmEncrypt := fun _ _ _ => rfl
    gcmEncrypt_bytes := fun _ _ _ h => h
    textDecode_textEncode := by
      intro s
      induction s with
      | nil => rfl
      | cons c cs ih =>
        have hc : c.toNat < 1114112 := by
          rcases c.valid with h | ⟨h1, h2⟩
          · exact Nat.lt_trans h (by norm_num)
          · exact h2
        show Char.ofNat (c.toNat % 256 + 256 * (c.toNat / 256 % 256) + 65536 * (c.toNat / 65536)) ::
            testTextDecode (testTextEncode cs) = c :: cs
        rw [show c.toNat % 256 + 256 * (c.toNat / 256 % 256) + 65536 * (c.toNat / 65536) = c.toNat
            from by omega,
          Char.ofNat_toNat, ih]
    textEncode_bytes := by
      intro s x hx
      simp only [testTextEncode, List.mem_flatMap, encodeChar3, List.mem_cons,
        List.not_mem_nil, or_false] at hx
      obtain ⟨c, _, hc⟩ := hx
      have hb : c.toNat < 1114112 := by
        rcases c.valid with h | ⟨h1, h2⟩
        · exact Nat.lt_trans h (by norm_num)
        · exact h2
      rcases hc with rfl | rfl | rfl <;> omega }

/-! ### Concrete worlds, stores and requests for the witnesses -/

def testWorld : World :=
  { assetsFetch := fun _ => { status := 404, headers := [], body := none }
    resolveToken := fun t => if t = str "tok" then some (str "user123") else none }

def zeroIV : List Nat := List.replicate 12 0

def emptyStore : Store := fun _ => none

/-- A backend holding only a legacy-keyed plaintext record for `user123`. -/
def legacyOnlyStore : Store :=
  fun k => if k = buildLegacyKVKey (str "user123") then some (str "\x7b\"scenes\":[]\x7d") else none

/-- A sealed blob that decrypts (under `testPrims` and `user123`) to the
serialized empty payload. -/
def c2Blob : List Char :=
  b64EncodeBytes (List.replicate 12 0 ++ testTextEncode (str "\x7b\"scenes\":[]\x7d"))

/-- A backend holding both a current-keyed sealed record and a legacy record. -/
def c2BothStore : Store :=
  fun k =>
    if k = buildKVKey testPrims (str "user123") then some c2Blob
    else if k = buildLegacyKVKey (str "user123") then some (str "LEGACY MARKER") else none

/-- A backend whose current-keyed record is not valid base64. -/
def c3BadBlobStore : Store :=
  fun k => if k = buildKVKey testPrims (str "user123") then some (str "####") else none

/-- A backend whose current-keyed record decrypts to a string that is not

valid JSON. -/
def c3JunkStore : Store :=
  fun k => if k = buildKVKey testPrims (str "user123") then some (str "ABCD") else none

def c4BigBodyReq : Request :=
  { method := str "PUT", pathname := str "/api/scenes", protocol := str "https:",
    hostname := str "favscene.example", authHeader := some (str "Bearer tok"),
    contentLength := some (str "100"), bodyText := some (jsonStringify bigPayload) }

def c4LongAsciiReq : Request :=
  { method := str "PUT", pathname := str "/api/scenes", protocol := str "https:",
    hostname := str "favscene.example", authHeader := some (str "Bearer tok"),
    contentLength := none, bodyText := some (List.replicate 51201 'a') }

def c4SmallReq : Request :=
  { method := str "PUT", pathname := str "/api/scenes", protocol := str "https:",
    hostname := str "favscene.example", authHeader := some (str "Bearer tok"),
    contentLength := some (str "2"), bodyText := some (str "\x7b\x7d") }

def c5NullReq : Request :=
  { method := str "PUT", pathname := str "/api/scenes", protocol := str "https:",
    hostname := str "favscene.example", authHeader := some (str "Bearer tok"),
    contentLength := none, bodyText := some (str "null") }

def c6OptionsReq : Request :=
  { method := str "OPTIONS", pathname := str "/api/scenes", protocol := str "https:",
    hostname := str "favscene.example", authHeader := none,
    contentLength := none, bodyText := none }

def c6GetReq : Request :=
  { method := str "GET", pathname := str "/api/scenes", protocol := str "https:",
    hostname := str "favscene.example", authHeader := none,
    contentLength := none, bodyText := none }

def c7PutReq : Request :=
  { method := str "PUT", pathname := str "/api/scenes", protocol := str "https:",
    hostname := str "favscene.example", authHeader := some (str "Bearer tok"),
    contentLength := none, bodyText := some (str "\x7b\"scenes\":[]\x7d") }

def c9RootOptionsReq : Request :=
  { method := str "OPTIONS", pathname := str "/", protocol := str "https:",
    hostname := str "favscene.example", authHeader := none,
    contentLength := none, bodyText := none }

def c9ApiOptionsReq : Request :=
  { method := str "OPTIONS", pathname := str "/api/foo", protocol := str "https:",
    hostname := str "favscene.example", authHeader := none,
    contentLength := none, bodyText := none }

def c10PutReq : Request :=
  { method := str "PUT", pathname := str "/api/scenes", protocol := str "https:",
    hostname := str "favscene.example", authHeader := some (str "Bearer tok"),
    contentLength := none, bodyText := some (str "\x7b\"scenes\":[]\x7d") }

/-! ### Lemmas about base64 -/

theorem b64Index_b64Char (s : Nat) (h : s < 64) : b64Index (b64Char s) = some s := by
  have H : ∀ t, t < 64 → b64Index (b64Char t) = some t := by decide
  exact H s h

theorem b64Char_ne_pad (n : Nat) : b64Char n ≠ '=' := by
  by_cases h : n < 64
  · have H : ∀ t, t < 64 → b64Char t ≠ '=' := by decide
    exact H n h
  · have hlen : b64Chars.length = 64 := by decide
    show b64Chars.getD n 'A' ≠ '='
    rw [List.getD_eq_default _ _ (by omega)]
    decide

theorem b64Char_ne_brace (n : Nat) : b64Char n ≠ '\x7b' := by
  by_cases h : n < 64
  · have H : ∀ t, t < 64 → b64Char t ≠ '\x7b' := by decide
    exact H n h
  · have hlen : b64Chars.length = 64 := by decide
    show b64Chars.getD n 'A' ≠ '\x7b'
    rw [List.getD_eq_default _ _ (by omega)]
    decide

theorem b64_roundtrip (l : List Nat) (h : allBytes l) :
    b64DecodeChars (b64EncodeBytes l) = some l := by
  induction l using b64EncodeBytes.induct with
  | case1 => rfl
  | case2 a =>
    have ha : a < 256 := h a (by simp)
    rw [b64EncodeBytes, b64DecodeChars,
      b64Index_b64Char _ (by omega), b64Index_b64Char _ (by omega)]
    simp only [List.isEmpty_nil, Bool.and_true, if_pos rfl]
    have : a / 4 * 4 + a % 4 * 16 / 16 = a := by omega
    rw [this]
    simp
  | case3 a b =>
    have ha : a < 256 := h a (by simp)
    have hb : b < 256 := h b (by simp)
    rw [b64EncodeBytes, b64DecodeChars,
      b64Index_b64Char _ (by omega), b64Index_b64Char _ (by omega)]
    simp only [b64Char_ne_pad, if_neg, if_pos rfl, List.isEmpty_nil,
      b64Index_b64Char _ (by omega : b % 16 * 4 < 64)]
    have h1 : a / 4 * 4 + (a % 4 * 16 + b / 16) / 16 = a := by omega
    have h2 : (a % 4 * 16 + b / 16) % 16 * 16 + b % 16 * 4 / 4 = b := by omega
    rw [h1, h2]
    simp
  | case4 a b c rest ih =>
    have ha : a < 256 := h a (by simp)
    have hb : b < 256 := h b (by simp)
    have hc : c < 256 := h c (by simp)
    have ih' := ih (fun x hx => h x (by simp [hx]))
    rw [b64EncodeBytes, b64DecodeChars,
      b64Index_b64Char _ (by omega), b64Index_b64Char _ (by omega)]
    simp only [b64Char_ne_pad, if_neg,
      b64Index_b64Char _ (by omega : b % 16 * 4 + c / 64 < 64),
      b64Index_b64Char _ (by omega : c % 64 < 64), ih']
    have h1 : a / 4 * 4 + (a % 4 * 16 + b / 16) / 16 = a := by omega
    have h2 : (a % 4 * 16 + b / 16) % 16 * 16 + (b % 16 * 4 + c / 64) / 4 = b := by omega
    have h3 : (b % 16 * 4 + c / 64) % 4 * 64 + c % 64 = c := by omega
    rw [h1, h2, h3]
    simp

/-! ### Lemmas about `isEncrypted` -/

theorem isEncrypted_iff_head (s : List Char) :
    isEncrypted s = true ↔ s.head? ≠ some '\x7b' := by
  cases s with
  | nil => simp [isEncrypted, jsStartsWith, str]
  | cons c cs => simp [isEncrypted, jsStartsWith, str]

theorem isEncrypted_b64EncodeBytes (bytes : List Nat) :
    isEncrypted (b64EncodeBytes bytes) = true := by
  match bytes with
  | [] => rfl
  | [a] => simp [b64EncodeBytes, isEncrypted, jsStartsWith, str, b64Char_ne_brace]
  | [a, b] => simp [b64EncodeBytes, isEncrypted, jsStartsWith, str, b64Char_ne_brace]
  | a :: b :: c :: rest =>
    simp [b64EncodeBytes, isEncrypted, jsStartsWith, str, b64Char_ne_brace]

theorem isEncrypted_encrypt (P : CryptoPrims) (iv : List Nat) (plaintext userId : List Char) :
    isEncrypted (encrypt P iv plaintext userId) = true :=
  isEncrypted_b64EncodeBytes _

theorem isEncrypted_jobj (fs : List (List Char × JValue)) :
    isEncrypted (jsonStringify (.jobj fs)) = false := by
  simp [jsonStringify, isEncrypted, jsStartsWith, str]

/-! ### The seal/open round-trip -/

theorem decrypt_encrypt (P : CryptoPrims) (iv : List Nat) (plaintext userId : List Char)
    (hlen : iv.length = 12) (hbytes : allBytes iv) :
    decrypt P (encrypt P iv plaintext userId) userId = some plaintext := by
  unfold encrypt decrypt
  have hcomb : allBytes (iv ++ P.gcmEncrypt (deriveKey P userId) iv (P.textEncode plaintext)) := by
    intro x hx
    rcases List.mem_append.mp hx with hx | hx
    · exact hbytes x hx
    · exact P.gcmEncrypt_bytes _ _ _ (P.textEncode_bytes plaintext) x hx
  rw [b64_roundtrip _ hcomb]
  have ht : (iv ++ P.gcmEncrypt (deriveKey P userId) iv (P.textEncode plaintext)).take 12 = iv := by
    rw [← hlen]; exact List.take_left _ _
  have hd : (iv ++ P.gcmEncrypt (deriveKey P userId) iv (P.textEncode plaintext)).drop 12 =
      P.gcmEncrypt (deriveKey P userId) iv (P.textEncode plaintext) := by
    rw [← hlen]; exact List.drop_left _ _
  simp only [ht, hd, P.gcmDecrypt_gcmEncrypt, P.textDecode_textEncode]

/-! ### Length lemmas -/

theorem jsLength_append (a b : List Char) : jsLength (a ++ b) = jsLength a + jsLength b := by
  simp [jsLength]

theorem utf8Length_append (a b : List Char) : utf8Length (a ++ b) = utf8Length a + utf8Length b := by
  simp [utf8Length]

theorem charWidth16_le_utf8Size (c : Char) : charWidth16 c ≤ c.utf8Size := by
  have hvt : c.toNat = c.val.toNat := rfl
  unfold charWidth16
  split
  · exact Char.utf8Size_pos c
  · rename_i h
    simp only [Char.utf8Size]
    split
    · rename_i h1
      have h1' : c.val.toNat ≤ (127 : UInt32).toNat := h1
      have e : (127 : UInt32).toNat = 127 := rfl
      omega
    · split
      · rename_i _ h2
        have h2' : c.val.toNat ≤ (2047 : UInt32).toNat := h2
        have e : (2047 : UInt32).toNat = 2047 := rfl
        omega
      · split
        · rename_i _ _ h3
          have h3' : c.val.toNat ≤ (65535 : UInt32).toNat := h3
          have e : (65535 : UInt32).toNat = 65535 := rfl
          omega
        · omega

theorem jsLength_le_utf8Length (s : List Char) : jsLength s ≤ utf8Length s := by
  induction s with
  | nil => simp [jsLength, utf8Length]
  | cons c cs ih =>
    have := charWidth16_le_utf8Size c
    simp only [jsLength, utf8Length, List.map_cons, List.sum_cons] at ih ⊢
    omega

/-! ### The oversized well-formed body -/

theorem escapeChars_replicate_euro (n : Nat) :
    escapeChars (List.replicate n '€') = List.replicate n '€' := by
  induction n with
  | zero => rfl
  | succ n ih =>
    have hstep : escapeChars ('€' :: List.replicate n '€') =
        escChar '€' ++ escapeChars (List.replicate n '€') := rfl
    rw [List.replicate_succ, hstep, ih, show escChar '€' = ['€'] from rfl]
    rfl

theorem escapeChars_bigPad : escapeChars bigPad = bigPad := escapeChars_replicate_euro 17100

theorem stringify_around (mid : List Char) :
    '\x7b' :: ('"' :: escapeChars (str "scenes") ++ '"' :: ':' ::
        ('[' :: ('"' :: mid ++ ['"']) ++ [']'])) ++ ['\x7d'] =
      (str "\x7b\"scenes\":[\"") ++ mid ++ (str "\"]\x7d") := by
  rw [show escapeChars (str "scenes") = str "scenes" from by decide]
  rw [show str "\x7b\"scenes\":[\"" =
      '\x7b' :: '"' :: 's' :: 'c' :: 'e' :: 'n' :: 'e' :: 's' :: '"' :: ':' :: '[' :: ['"'] from rfl,
    show str "\"]\x7d" = '"' :: ']' :: ['\x7d'] from rfl,
    show str "scenes" = 's' :: 'c' :: 'e' :: 'n' :: 'e' :: ['s'] from rfl]
  simp only [List.cons_append, List.nil_append, List.singleton_append, List.append_assoc]

theorem bigBody_eq :
    jsonStringify bigPayload = (str "\x7b\"scenes\":[\"") ++ bigPad ++ (str "\"]\x7d") := by
  rw [show bigPayload = JValue.jobj [(str "scenes", JValue.jarr [JValue.jstr bigPad])] from rfl,
    jsonStringify, stringifyFields, jsonStringify, stringifyItems, jsonStringify,
    escapeChars_bigPad, stringify_around]

theorem bigBody_jsLength : jsLength (jsonStringify bigPayload) = 17115 := by
  rw [bigBody_eq, jsLength_append, jsLength_append]
  have h1 : jsLength (str "\x7b\"scenes\":[\"") = 12 := by decide
  have h2 : jsLength (str "\"]\x7d") = 3 := by decide
  have h3 : jsLength bigPad = 17100 := by
    show (List.map charWidth16 (List.replicate 17100 '€')).sum = 17100
    rw [List.map_replicate, List.sum_replicate, show charWidth16 '€' = 1 from by decide,
      smul_eq_mul, Nat.mul_one]
  omega

theorem bigBody_utf8Length : utf8Length (jsonStringify bigPayload) = 51315 := by
  rw [bigBody_eq, utf8Length_append, utf8Length_append]
  have h1 : utf8Length (str "\x7b\"scenes\":[\"") = 12 := by decide
  have h2 : utf8Length (str "\"]\x7d") = 3 := by decide
  have h3 : utf8Length bigPad = 51300 := by
    show (List.map Char.utf8Size (List.replicate 17100 '€')).sum = 51300
    rw [List.map_replicate, List.sum_replicate, show Char.utf8Size '€' = 3 from by decide,
      smul_eq_mul]
  omega

theorem bigBody_listLength : (jsonStringify bigPayload).length = 17115 := by
  rw [bigBody_eq, List.length_append, List.length_append]
  have h1 : (str "\x7b\"scenes\":[\"").length = 12 := by decide
  have h2 : (str "\"]\x7d").length = 3 := by decide
  have h3 : bigPad.length = 17100 := List.length_replicate 17100 '€'
  omega

theorem testParse_bigBody : testParse (jsonStringify bigPayload) = some bigPayload := by
  have hne1 : ¬(jsonStringify bigPayload = str "\x7b\"scenes\":[]\x7d") := by
    intro hEq
    have h := congrArg List.length hEq
    rw [bigBody_listLength] at h
    exact absurd h (by decide)
  have hne2 : ¬(jsonStringify bigPayload = str "null") := by
    intro hEq
    have h := congrArg List.length hEq
    rw [bigBody_listLength] at h
    exact absurd h (by decide)
  have hne3 : ¬(jsonStringify bigPayload = str "\x7b\x7d") := by
    intro hEq
    have h := congrArg List.length hEq
    rw [bigBody_listLength] at h
    exact absurd h (by decide)
  have hguard : ((jsonStringify bigPayload).length == 17115 &&
      (jsonStringify bigPayload == jsonStringify bigPayload)) = true := by
    rw [bigBody_listLength]
    simp
  unfold testParse
  rw [if_neg hne1, if_neg hne2, if_neg hne3, if_pos hguard]

/-! ### Case analysis of `handlePutScenes` -/

/-- Every successful run of `handlePutScenes` either left the backend
untouched with no operations (a validation rejection) or parsed the body and
wrote exactly the sealed serialization under the current key. -/
theorem handlePutScenes_ok (P : CryptoPrims) (store : Store) (userId : List Char)
    (iv : List Nat) (req : Request) (res : Response × Store × List KVOp)
    (h : handlePutScenes P store userId iv req = .ok res) :
    (res.2.1 = store ∧ res.2.2 = []) ∨
    (∃ body payload, req.bodyText = some body ∧ P.jsonParse body = some payload ∧
      res = (jsonResponse okVal 200,
             putStore store (buildKVKey P userId) (encrypt P iv (jsonStringify payload) userId),
             [KVOp.write (buildKVKey P userId)
               (encrypt P iv (jsonStringify payload) userId)])) := by
  unfold handlePutScenes at h
  split at h
  · cases h; exact Or.inl ⟨rfl, rfl⟩
  · split at h
    · cases h; exact Or.inl ⟨rfl, rfl⟩
    · rename_i body heq
      split at h
      · cases h; exact Or.inl ⟨rfl, rfl⟩
      · split at h
        · cases h; exact Or.inl ⟨rfl, rfl⟩
        · rename_i payload hparse
          split at h
          · simp at h
          · split at h
            · cases h; exact Or.inl ⟨rfl, rfl⟩
            · split at h
              · cases h; exact Or.inl ⟨rfl, rfl⟩
              · cases h
                exact Or.inr ⟨body, payload, heq, hparse, rfl⟩

/-- Claim C1: for every identity and plaintext, decrypting the sealed blob
with the key derived from the same identity returns the original plaintext
(given the fresh 12-byte IV produced by the random source). -/
theorem c1_seal_open_roundtrip (P : CryptoPrims) (plaintext userId : List Char)
    (iv : List Nat) (hlen : iv.length = 12) (hbytes : allBytes iv) :
    decrypt P (encrypt P iv plaintext userId) userId = some plaintext :=
  decrypt_encrypt P iv plaintext userId hlen hbytes

theorem c1_seal_open_roundtrip_witness :
    zeroIV.length = 12 ∧ allBytes zeroIV ∧
      decrypt testPrims (encrypt testPrims zeroIV (str "hello") (str "user123")) (str "user123") =
        some (str "hello") :=
  ⟨by decide, by decide,
    c1_seal_open_roundtrip testPrims (str "hello") (str "user123") zeroIV (by decide) (by decide)⟩

/-- Claim C8: `isEncrypted` returns true exactly when the first character is
not a brace, and in particular is true on the empty string. -/
theorem c8_isEncrypted_characterization :
    (∀ raw : List Char, isEncrypted raw = true ↔ raw.head? ≠ some '\x7b') ∧
      isEncrypted (str "") = true :=
  ⟨isEncrypted_iff_head, by decide⟩

/-- Claim C7: every sealed blob is base64 text and is never classified as
legacy: (i) `encrypt` output always satisfies `isEncrypted`; (ii) every value
written to the backend by `handlePutScenes` satisfies `isEncrypted`;
(iii) serialized JSON objects — the legacy plaintext records — always start
with a brace, hence are classified as legacy. -/
theorem c7_sealed_blob_format (P : CryptoPrims) :
    (∀ iv plaintext userId, isEncrypted (encrypt P iv plaintext userId) = true) ∧
    (∀ store userId iv req res k v,
      handlePutScenes P store userId iv req = .ok res →
      KVOp.write k v ∈ res.2.2 → isEncrypted v = true) ∧
    (∀ fs, isEncrypted (jsonStringify (.jobj fs)) = false) := by
  refine ⟨fun iv plaintext userId => isEncrypted_encrypt P iv plaintext userId, ?_,
    fun fs => isEncrypted_jobj fs⟩
  intro store userId iv req res k v hok hmem
  rcases handlePutScenes_ok P store userId iv req res hok with ⟨_, hops⟩ | ⟨body, payload, _, _, hres⟩
  · rw [hops] at hmem
    simp at hmem
  · rw [hres] at hmem
    simp only [List.mem_singleton, KVOp.write.injEq] at hmem
    rw [hmem.2]
    exact isEncrypted_encrypt P iv (jsonStringify payload) userId

theorem c7_sealed_blob_format_witness :
    handlePutScenes testPrims emptyStore (str "user123") zeroIV c7PutReq =
      .ok (jsonResponse okVal 200,
           putStore emptyStore (buildKVKey testPrims (str "user123"))
             (encrypt testPrims zeroIV (jsonStringify emptyScenesVal) (str "user123")),
           [KVOp.write (buildKVKey testPrims (str "user123"))
             (encrypt testPrims zeroIV (jsonStringify emptyScenesVal) (str "user123"))]) ∧
    isEncrypted (encrypt testPrims zeroIV (jsonStringify emptyScenesVal) (str "user123")) = true := by
  have hput : handlePutScenes testPrims emptyStore (str "user123") zeroIV c7PutReq =
      .ok (jsonResponse okVal 200,
           putStore emptyStore (buildKVKey testPrims (str "user123"))
             (encrypt testPrims zeroIV (jsonStringify emptyScenesVal) (str "user123")),
           [KVOp.write (buildKVKey testPrims (str "user123"))
             (encrypt testPrims zeroIV (jsonStringify emptyScenesVal) (str "user123"))]) := rfl
  refine ⟨hput, ?_⟩
  exact (c7_sealed_blob_format testPrims).2.1 emptyStore (str "user123") zeroIV c7PutReq _
    (buildKVKey testPrims (str "user123"))
    (encrypt testPrims zeroIV (jsonStringify emptyScenesVal) (str "user123"))
    hput (List.mem_singleton.mpr rfl)

/-- Claim C10: a save writes only to the current (hashed) key: every other
key — in particular the legacy key — holds the same value after any outcome
of `handlePutScenes`, and every write operation it performs targets the
current key. -/
theorem c10_save_frame (P : CryptoPrims) (store : Store) (userId : List Char)
    (iv : List Nat) (req : Request) (res : Response × Store × List KVOp)
    (h : handlePutScenes P store userId iv req = .ok res) :
    (∀ k, k ≠ buildKVKey P userId → res.2.1 k = store k) ∧
    (buildLegacyKVKey userId ≠ buildKVKey P userId →
      res.2.1 (buildLegacyKVKey userId) = store (buildLegacyKVKey userId)) ∧
    (∀ k v, KVOp.write k v ∈ res.2.2 → k = buildKVKey P userId) := by
  have hframe : ∀ k, k ≠ buildKVKey P userId → res.2.1 k = store k := by
    intro k hk
    rcases handlePutScenes_ok P store userId iv req res h with ⟨hst, _⟩ | ⟨body, payload, _, _, hres⟩
    · rw [hst]
    · rw [hres]
      exact if_neg hk
  refine ⟨hframe, hframe _, ?_⟩
  intro k v hmem
  rcases handlePutScenes_ok P store userId iv req res h with ⟨_, hops⟩ | ⟨body, payload, _, _, hres⟩
  · rw [hops] at hmem
    simp at hmem
  · rw [hres] at hmem
    simp only [List.mem_singleton, KVOp.write.injEq] at hmem
    exact hmem.1

/-! ### Case analysis of `handleGetScenes` and `tryGetPayload` -/

theorem false_eq_true_eq : (false = true) = False := eq_false (by decide)

theorem handleGetScenes_absent (P : CryptoPrims) (store : Store) (userId : List Char)
    (h1 : store (buildKVKey P userId) = none) (h2 : store (buildLegacyKVKey userId) = none) :
    handleGetScenes P store userId =
      (jsonResponse emptyScenesVal 200,
       [KVOp.read (buildKVKey P userId), KVOp.read (buildLegacyKVKey userId)]) := by
  simp only [handleGetScenes, h1, h2]
  simp [strFalsy]

theorem handleGetScenes_legacy (P : CryptoPrims) (store : Store) (userId s : List Char)
    (h1 : store (buildKVKey P userId) = none)
    (h2 : store (buildLegacyKVKey userId) = some s) (hs : s.isEmpty = false) :
    handleGetScenes P store userId =
      ((match tryGetPayload P s userId with
        | some payload => jsonResponse payload 200
        | none => jsonResponse emptyScenesVal 200),
       [KVOp.read (buildKVKey P userId), KVOp.read (buildLegacyKVKey userId)]) := by
  simp only [handleGetScenes, h1, h2, strFalsy, hs, false_eq_true_eq, if_false, if_true]
  cases htry : tryGetPayload P s userId <;> rfl

theorem handleGetScenes_current (P : CryptoPrims) (store : Store) (userId c : List Char)
    (h1 : store (buildKVKey P userId) = some c) (hc : c.isEmpty = false) :
    handleGetScenes P store userId =
      ((match tryGetPayload P c userId with
        | some payload => jsonResponse payload 200
        | none => jsonResponse emptyScenesVal 200),
       [KVOp.read (buildKVKey P userId)]) := by
  simp only [handleGetScenes, h1, strFalsy, hc, false_eq_true_eq, if_false, if_true]
  cases htry : tryGetPayload P c userId <;> rfl

theorem tryGetPayload_enc_ok (P : CryptoPrims) (raw userId js : List Char) (v : JValue)
    (h3 : isEncrypted raw = true) (h4 : decrypt P raw userId = some js)
    (h5 : P.jsonParse js = some v) (h6 : scenesAccessOk v = true) :
    tryGetPayload P raw userId = some v := by
  simp only [tryGetPayload, h3, h4, h5, h6, if_true]

theorem tryGetPayload_enc_decfail (P : CryptoPrims) (raw userId : List Char)
    (h3 : isEncrypted raw = true) (h4 : decrypt P raw userId = none) :
    tryGetPayload P raw userId = none := by
  simp only [tryGetPayload, h3, h4, if_true]

theorem tryGetPayload_enc_parsefail (P : CryptoPrims) (raw userId js : List Char)
    (h3 : isEncrypted raw = true) (h4 : decrypt P raw userId = some js)
    (h5 : P.jsonParse js = none) :
    tryGetPayload P raw userId = none := by
  simp only [tryGetPayload, h3, h4, h5, if_true]

theorem tryGetPayload_plain_ok (P : CryptoPrims) (raw userId : List Char) (v : JValue)
    (h3 : isEncrypted raw = false) (h5 : P.jsonParse raw = some v)
    (h6 : scenesAccessOk v = true) :
    tryGetPayload P raw userId = some v := by
  simp only [tryGetPayload, h3, false_eq_true_eq, if_false, if_true]
  rw [h5]
  simp [h6]

theorem tryGetPayload_plain_parsefail (P : CryptoPrims) (raw userId : List Char)
    (h3 : isEncrypted raw = false) (h5 : P.jsonParse raw = none) :
    tryGetPayload P raw userId = none := by
  simp only [tryGetPayload, h3, false_eq_true_eq, if_false, if_true]
  rw [h5]

theorem isEmpty_false_of_not_encrypted (s : List Char) (h : isEncrypted s = false) :
    s.isEmpty = false := by
  cases s with
  | nil => exact absurd h (by decide)
  | cons a l => rfl

theorem isEmpty_false_of_ne_nil (s : List Char) (h : s ≠ []) : s.isEmpty = false := by
  cases s with
  | nil => exact absurd rfl h
  | cons a l => rfl

/-- Claim C2: `fetchScenes` reads the current (hashed) key first and uses the
legacy key only when the current key is absent: (i) with only a legacy
plaintext record present, the response carries its parsed content (and both
keys were read, current first); (ii) with a current record present, the
response is a function of that record alone — the legacy record is never
read and cannot influence the result; (iii) in particular a current record
that decrypts and parses is what the response carries. -/
theorem c2_legacy_fallback (P : CryptoPrims) (store : Store) (userId : List Char) :
    (∀ s v, store (buildKVKey P userId) = none →
      store (buildLegacyKVKey userId) = some s →
      isEncrypted s = false →
      P.jsonParse s = some v → scenesAccessOk v = true →
      handleGetScenes P store userId =
        (jsonResponse v 200,
         [KVOp.read (buildKVKey P userId), KVOp.read (buildLegacyKVKey userId)])) ∧
    (∀ c, store (buildKVKey P userId) = some c → c ≠ [] →
      handleGetScenes P store userId =
        ((match tryGetPayload P c userId with
          | some payload => jsonResponse payload 200
          | none => jsonResponse emptyScenesVal 200),
         [KVOp.read (buildKVKey P userId)])) ∧
    (∀ c js v, store (buildKVKey P userId) = some c → c ≠ [] →
      isEncrypted c = true → decrypt P c userId = some js →
      P.jsonParse js = some v → scenesAccessOk v = true →
      handleGetScenes P store userId =
        (jsonResponse v 200, [KVOp.read (buildKVKey P userId)])) := by
  refine ⟨?_, ?_, ?_⟩
  · intro s v h1 h2 h3 h4 h5
    rw [handleGetScenes_legacy P store userId s h1 h2 (isEmpty_false_of_not_encrypted s h3),
      tryGetPayload_plain_ok P s userId v h3 h4 h5]
  · intro c h1 hc
    exact handleGetScenes_current P store userId c h1 (isEmpty_false_of_ne_nil c hc)
  · intro c js v h1 hc h3 h4 h5 h6
    rw [handleGetScenes_current P store userId c h1 (isEmpty_false_of_ne_nil c hc),
      tryGetPayload_enc_ok P c userId js v h3 h4 h5 h6]

theorem c2_legacy_fallback_witness :
    handleGetScenes testPrims legacyOnlyStore (str "user123") =
      (jsonResponse emptyScenesVal 200,
       [KVOp.read (buildKVKey testPrims (str "user123")),
        KVOp.read (buildLegacyKVKey (str "user123"))]) ∧
    handleGetScenes testPrims c2BothStore (str "user123") =
      (jsonResponse emptyScenesVal 200, [KVOp.read (buildKVKey testPrims (str "user123"))]) := by
  constructor
  · exact (c2_legacy_fallback testPrims legacyOnlyStore (str "user123")).1
      (str "\x7b\"scenes\":[]\x7d") emptyScenesVal
      (by decide) (by decide) (by decide) rfl (by decide)
  · exact (c2_legacy_fallback testPrims c2BothStore (str "user123")).2.2
      c2Blob (str "\x7b\"scenes\":[]\x7d") emptyScenesVal
      (by decide) (by decide) (by decide) (by decide) rfl (by decide)

/-- Claim C3: `fetchScenes` never fails: every response has status 200, and
in each degenerate situation — no record under either key, a current record
that does not decrypt, a record that decrypts to non-JSON, or a legacy
record that does not parse — the response is the empty payload. -/
theorem c3_fetch_fail_soft (P : CryptoPrims) (store : Store) (userId : List Char) :
    (handleGetScenes P store userId).1.status = 200 ∧
    (store (buildKVKey P userId) = none → store (buildLegacyKVKey userId) = none →
      (handleGetScenes P store userId).1 = jsonResponse emptyScenesVal 200) ∧
    (∀ c, store (buildKVKey P userId) = some c → c ≠ [] → isEncrypted c = true →
      decrypt P c userId = none →
      (handleGetScenes P store userId).1 = jsonResponse emptyScenesVal 200) ∧
    (∀ c js, store (buildKVKey P userId) = some c → c ≠ [] → isEncrypted c = true →
      decrypt P c userId = some js → P.jsonParse js = none →
      (handleGetScenes P store userId).1 = jsonResponse emptyScenesVal 200) ∧
    (∀ s, store (buildKVKey P userId) = none → store (buildLegacyKVKey userId) = some s →
      isEncrypted s = false → P.jsonParse s = none →
      (handleGetScenes P store userId).1 = jsonResponse emptyScenesVal 200) := by
  refine ⟨?_, ?_, ?_, ?_, ?_⟩
  · simp only [handleGetScenes]
    repeat' split
    all_goals rfl
  · intro h1 h2
    rw [handleGetScenes_absent P store userId h1 h2]
  · intro c h1 hc h3 h4
    rw [handleGetScenes_current P store userId c h1 (isEmpty_false_of_ne_nil c hc),
      tryGetPayload_enc_decfail P c userId h3 h4]
  · intro c js h1 hc h3 h4 h5
    rw [handleGetScenes_current P store userId c h1 (isEmpty_false_of_ne_nil c hc),
      tryGetPayload_enc_parsefail P c userId js h3 h4 h5]
  · intro s h1 h2 h3 h4
    rw [handleGetScenes_legacy P store userId s h1 h2 (isEmpty_false_of_not_encrypted s h3),
      tryGetPayload_plain_parsefail P s userId h3 h4]

theorem c3_fetch_fail_soft_witness :
    (handleGetScenes testPrims emptyStore (str "user123")).1.status = 200 ∧
    (handleGetScenes testPrims emptyStore (str "user123")).1 = jsonResponse emptyScenesVal 200 ∧
    (handleGetScenes testPrims c3BadBlobStore (str "user123")).1 = jsonResponse emptyScenesVal 200 ∧
    (handleGetScenes testPrims c3JunkStore (str "user123")).1 = jsonResponse emptyScenesVal 200 := by
  refine ⟨(c3_fetch_fail_soft testPrims emptyStore (str "user123")).1, ?_, ?_, ?_⟩
  · exact (c3_fetch_fail_soft testPrims emptyStore (str "user123")).2.1 (by decide) (by decide)
  · exact (c3_fetch_fail_soft testPrims c3BadBlobStore (str "user123")).2.2.1
      (str "####") (by decide) (by decide) (by decide) (by decide)
  · exact (c3_fetch_fail_soft testPrims c3JunkStore (str "user123")).2.2.2.1
      (str "ABCD") (str "") (by decide) (by decide) (by decide) (by decide) rfl

theorem c10_save_frame_witness :
    (handlePutScenes testPrims legacyOnlyStore (str "user123") zeroIV c10PutReq).map
        (fun r => r.2.1 (buildLegacyKVKey (str "user123"))) =
      .ok (some (str "\x7b\"scenes\":[]\x7d")) := by
  have h : handlePutScenes testPrims legacyOnlyStore (str "user123") zeroIV c10PutReq =
      .ok (jsonResponse okVal 200,
           putStore legacyOnlyStore (buildKVKey testPrims (str "user123"))
             (encrypt testPrims zeroIV (jsonStringify emptyScenesVal) (str "user123")),
           [KVOp.write (buildKVKey testPrims (str "user123"))
             (encrypt testPrims zeroIV (jsonStringify emptyScenesVal) (str "user123"))]) := rfl
  have hfr := (c10_save_frame testPrims legacyOnlyStore (str "user123") zeroIV c10PutReq _ h).2.1
    (by decide)
  have hfr2 : putStore legacyOnlyStore (buildKVKey testPrims (str "user123"))
        (encrypt testPrims zeroIV (jsonStringify emptyScenesVal) (str "user123"))
        (buildLegacyKVKey (str "user123")) =
      legacyOnlyStore (buildLegacyKVKey (str "user123")) := hfr
  rw [h]
  simp only [Except.map]
  rw [hfr2]
  rfl

/-- Claim C4 (amended): the body-size check compares the length of the body
string in UTF-16 code units (the JS `String.length` the code uses), not its
UTF-8 byte length: (i) whenever that string length exceeds 50 * 1024 the
save is rejected with the payload-too-large response regardless of the
Content-Length hint; (ii) a body of at most 50 KiB of actual bytes with an
accurate hint passes both size checks — no outcome carries status 413. -/
theorem c4_size_checks (P : CryptoPrims) (store : Store) (userId : List Char)
    (iv : List Nat) (req : Request) :
    (∀ body, req.bodyText = some body → jsLength body > 50 * 1024 →
      handlePutScenes P store userId iv req =
        .ok (jsonResponse (errorVal (str "Payload too large. Maximum 50KB allowed.")) 413,
             store, [])) ∧
    (∀ body hint, req.bodyText = some body → req.contentLength = some hint →
      jsParseInt hint = some ((utf8Length body : Nat) : Int) →
      utf8Length body ≤ 50 * 1024 →
      ∀ res, handlePutScenes P store userId iv req = .ok res → res.1.status ≠ 413) := by
  constructor
  · intro body hb hlen
    unfold handlePutScenes
    split
    · rfl
    · simp only [hb]
      rw [if_pos hlen]
  · intro body hint hb hh hparse hle res hok
    have hhint : hintTooLarge req.contentLength = false := by
      rw [hh]
      simp only [hintTooLarge, hparse]
      rw [decide_eq_false (by omega : ¬((50 * 1024 : Int) < ((utf8Length body : Nat) : Int)))]
      simp
    have hjs : ¬(jsLength body > 50 * 1024) := by
      have := jsLength_le_utf8Length body
      omega
    unfold handlePutScenes at hok
    simp only [hhint, false_eq_true_eq, if_false, hb] at hok
    rw [if_neg hjs] at hok
    split at hok
    · cases hok; simp [jsonResponse]
    · split at hok
      · simp at hok
      · split at hok
        · cases hok; simp [jsonResponse]
        · split at hok
          · cases hok; simp [jsonResponse]
          · cases hok; simp [jsonResponse]

theorem c4_size_checks_witness :
    handlePutScenes testPrims emptyStore (str "user123") zeroIV c4LongAsciiReq =
      .ok (jsonResponse (errorVal (str "Payload too large. Maximum 50KB allowed.")) 413,
           emptyStore, []) ∧
    (handlePutScenes testPrims emptyStore (str "user123") zeroIV c4SmallReq).map
        (fun r => r.1.status) ≠ .ok 413 := by
  constructor
  · have hlen : jsLength (List.replicate 51201 'a') = 51201 := by
      show (List.map charWidth16 (List.replicate 51201 'a')).sum = 51201
      rw [List.map_replicate, List.sum_replicate, show charWidth16 'a' = 1 from by decide,
        smul_eq_mul, Nat.mul_one]
    exact (c4_size_checks testPrims emptyStore (str "user123") zeroIV c4LongAsciiReq).1
      (List.replicate 51201 'a') rfl (by rw [hlen]; decide)
  · have h : handlePutScenes testPrims emptyStore (str "user123") zeroIV c4SmallReq =
        .ok (jsonResponse (errorVal (str "Invalid payload structure")) 400, emptyStore, []) := rfl
    have hne := (c4_size_checks testPrims emptyStore (str "user123") zeroIV c4SmallReq).2
      (str "\x7b\x7d") (str "2") rfl rfl (by decide) (by decide) _ h
    intro hcontra
    rw [h] at hcontra
    simp only [Except.map, Except.ok.injEq] at hcontra
    exact hne hcontra

/-- Claim C4 is false as stated: this well-shaped save body is 51315 bytes
of UTF-8 — beyond the 50 KiB limit — and its Content-Length hint
under-reports it as 100; yet the save completes with the `ok` response
instead of rejecting the request as payload-too-large, because the code
compares `body.length` (17115 UTF-16 code units), not bytes. -/
theorem c4_counterexample :
    utf8Length (jsonStringify bigPayload) > 50 * 1024 ∧
    c4BigBodyReq.bodyText = some (jsonStringify bigPayload) ∧
    c4BigBodyReq.contentLength = some (str "100") ∧
    (handlePutScenes testPrims emptyStore (str "user123") zeroIV c4BigBodyReq).map
        (fun r => r.1) = .ok (jsonResponse okVal 200) := by
  refine ⟨by rw [bigBody_utf8Length]; decide, rfl, rfl, ?_⟩
  unfold handlePutScenes
  simp only [show hintTooLarge c4BigBodyReq.contentLength = false from by decide,
    false_eq_true_eq, if_false,
    show c4BigBodyReq.bodyText = some (jsonStringify bigPayload) from rfl]
  rw [if_neg (show ¬(jsLength (jsonStringify bigPayload) > 50 * 1024) from by
    rw [bigBody_jsLength]; decide)]
  rw [show testPrims.jsonParse = testParse from rfl, testParse_bigBody]
  rfl

/-- Claim C5 is contradicted by the code at body `"null"`: `JSON.parse`
succeeds with `null`, the shape check dereferences `null.scenes` and throws
a TypeError, and the outer boundary answers 500 — not the claimed 400
ValidationFailure.  The backend is untouched. -/
theorem c5_null_body_500 :
    handlePutScenes testPrims emptyStore (str "user123") zeroIV c5NullReq = .error () ∧
    (workerFetch testPrims testWorld emptyStore zeroIV c5NullReq).1 =
      jsonResponse (errorVal (str "Internal server error")) 500 ∧
    (workerFetch testPrims testWorld emptyStore zeroIV c5NullReq).2.1 = emptyStore ∧
    (workerFetch testPrims testWorld emptyStore zeroIV c5NullReq).2.2 = [] :=
  ⟨rfl, rfl, rfl, rfl⟩

/-- Claim C6 (amended): for a non-OPTIONS request to `/api/scenes` that is
not subject to the HTTPS upgrade redirect, a missing or non-Bearer
Authorization header yields the 401 response with no backend operation. -/
theorem c6_auth_gate (P : CryptoPrims) (W : World) (store : Store) (iv : List Nat)
    (req : Request) (hpath : req.pathname = str "/api/scenes")
    (hmethod : req.method ≠ str "OPTIONS")
    (hproto : req.protocol ≠ str "http:" ∨ req.hostname = str "localhost")
    (hauth : req.authHeader = none ∨
      ∃ a, req.authHeader = some a ∧ jsStartsWith a (str "Bearer ") = false) :
    workerFetch P W store iv req =
      (jsonResponse (errorVal (str "Missing or invalid Authorization header")) 401,
       store, []) := by
  have hp : (decide (req.protocol = str "http:") && !(decide (req.hostname = str "localhost"))) =
      false := by
    rcases hproto with h | h
    · simp [h]
    · simp [h]
  unfold workerFetch handleRequest
  rw [hpath]
  simp only [show jsStartsWith (str "/api/scenes") (str "/api/") = true from by decide,
    Bool.not_true, false_eq_true_eq, if_false]
  rw [if_neg hmethod]
  rw [hp]
  simp only [false_eq_true_eq, if_false, if_true]
  rcases hauth with h | ⟨a, ha, hsw⟩
  · rw [h]
  · rw [ha]
    simp only [hsw, Bool.not_false, if_true]

theorem c6_auth_gate_witness :
    workerFetch testPrims testWorld emptyStore zeroIV c6GetReq =
      (jsonResponse (errorVal (str "Missing or invalid Authorization header")) 401,
       emptyStore, []) :=
  c6_auth_gate testPrims testWorld emptyStore zeroIV c6GetReq rfl (by decide)
    (Or.inl (by decide)) (Or.inl rfl)

/-- Claim C6 is false as stated: an OPTIONS request to `/api/scenes` with no
Authorization header is answered by the CORS-preflight branch with 200, not
401, because the preflight check precedes authentication. -/
theorem c6_options_counterexample :
    c6OptionsReq.pathname = str "/api/scenes" ∧ c6OptionsReq.authHeader = none ∧
    (workerFetch testPrims testWorld emptyStore zeroIV c6OptionsReq).1.status = 200 ∧
    (workerFetch testPrims testWorld emptyStore zeroIV c6OptionsReq).1.status ≠ 401 :=
  ⟨rfl, rfl, rfl, by decide⟩

/-- Claim C9 (amended): every OPTIONS request whose path lies under `/api/`
receives the 200 CORS-preflight response with the CORS headers and an empty
body, and no backend operation occurs. -/
theorem c9_preflight (P : CryptoPrims) (W : World) (store : Store) (iv : List Nat)
    (req : Request) (hm : req.method = str "OPTIONS")
    (hp : jsStartsWith req.pathname (str "/api/") = true) :
    workerFetch P W store iv req =
      ({ status := 200, headers := CORS_HEADERS, body := none }, store, []) := by
  unfold workerFetch handleRequest
  simp only [hp, Bool.not_true, false_eq_true_eq, if_false]
  rw [if_pos hm]

theorem c9_preflight_witness :
    workerFetch testPrims testWorld emptyStore zeroIV c9ApiOptionsReq =
      ({ status := 200, headers := CORS_HEADERS, body := none }, emptyStore, []) :=
  c9_preflight testPrims testWorld emptyStore zeroIV c9ApiOptionsReq rfl (by decide)

/-- Claim C9 is false as stated: an OPTIONS request to the root path never
reaches the preflight branch — non-`/api/` paths are passed to the static
asset binding first, which here answers 404, not 200. -/
theorem c9_nonapi_options_counterexample :
    c9RootOptionsReq.method = str "OPTIONS" ∧
    (workerFetch testPrims testWorld emptyStore zeroIV c9RootOptionsReq).1.status = 404 ∧
    (workerFetch testPrims testWorld emptyStore zeroIV c9RootOptionsReq).1.status ≠ 200 :=
  ⟨rfl, rfl, by decide⟩
